import Mathlib

/-!
Shallow embedding of the VitalCare Rural firmware (ESP32 health-monitoring
demo) and its dashboard status classifiers, with theorems settling the
spec claims about the vitals sampling and alert loop.

Sources embedded:
* `firmware/esp32-main/src/main.cpp` — the single-ESP32 complete system
  (namespace `VitalCare.Main`): sensor reading, pulse detection, heart-rate
  aggregation, blood-pressure estimation, alert evaluation, JSON broadcast.
* `.VitalCare-Rural/firmware/esp32-sensors/src/main.cpp` — the two-ESP32
  sensor module (namespace `VitalCare.Sensors`): pulse detection with a
  300 ms refractory interval, AD8232 lead-off handling, rate selection.
* the dashboard JavaScript status classifiers (namespace
  `VitalCare.Dashboard`).

Modelling conventions: C `float` values are embedded as `ℚ` (exact
rationals; the firmware's comparisons and arithmetic carry over field by
field), `millis()` timestamps and `unsigned long` counters as `ℕ`
(`millis() - x` becomes truncated subtraction, faithful while the 32-bit
counter has not wrapped), ADC samples (C `int`) as `ℤ`, and the Arduino
`random(a, b)` calls as explicit integer inputs to the functions that use
them. Hardware side effects (buzzer, SMS, LED) are recorded as booleans in
the returned state instead of being performed.
-/

namespace VitalCare

namespace Main

/-- The `VitalSigns` struct of `esp32-main/src/main.cpp` (line 75):
heart rate, blood pressure, SpO2, temperature, ECG sample, barometric
pressure, timestamp and a status label. -/
structure VitalSigns where
  heartRate : ℚ
  systolicBP : ℚ
  diastolicBP : ℚ
  spO2 : ℚ
  temperature : ℚ
  ecgValue : ℤ
  pressure : ℚ
  timestamp : ℕ
  status : String
  deriving Repr, DecidableEq

/-- Status string written by `checkForAlerts` when any vital is out of band
(line 531 of `esp32-main/src/main.cpp`). -/
def alertStatus : String := "⚠️ ALERT"

/-- Status string written by `checkForAlerts` when every vital is in band
(line 549 of `esp32-main/src/main.cpp`). -/
def normalStatus : String := "✅ Normal"

/-- The alert condition of `checkForAlerts` (lines 505-527): heart rate
outside [50, 120], systolic blood pressure outside [80, 160], SpO2 below
90, or temperature outside [95, 102] °F. -/
def alertCondition (v : VitalSigns) : Prop :=
  (v.heartRate < 50 ∨ v.heartRate > 120) ∨
  (v.systolicBP > 160 ∨ v.systolicBP < 80) ∨
  (v.spO2 < 90) ∨
  (v.temperature > 102 ∨ v.temperature < 95)

instance (v : VitalSigns) : Decidable (alertCondition v) := by
  unfold alertCondition; infer_instance

/-- Result of one run of `checkForAlerts`: the updated vitals snapshot plus
the external side effects the function triggers (buzzer pulse, SMS send). -/
structure AlertResult where
  vitals : VitalSigns
  buzzerSounded : Bool
  smsSent : Bool
  deriving Repr, DecidableEq

/-- `checkForAlerts` of `esp32-main/src/main.cpp` (lines 499-551): if any
vital is out of its band, set status to `"⚠️ ALERT"`, sound the buzzer and
send an SMS when the GSM module is ready and an emergency contact is
registered; otherwise set status to `"✅ Normal"` with no side effects. -/
def checkForAlerts (v : VitalSigns) (sim800Ready : Bool)
    (emergencyContactLen : ℕ) : AlertResult :=
  if alertCondition v then
    { vitals := { v with status := alertStatus },
      buzzerSounded := true,
      smsSent := sim800Ready && decide (0 < emergencyContactLen) }
  else
    { vitals := { v with status := normalStatus },
      buzzerSounded := false,
      smsSent := false }

/-- The `updateVitalStatus(type, value, minNormal, maxNormal)` classifier of
the dashboard embedded in `esp32-main/src/main.cpp` (lines 819-840): inside
[minNormal, maxNormal] is "Normal", further than 20% outside is "Critical",
otherwise "Warning". -/
def updateVitalStatus (value minNormal maxNormal : ℚ) : String :=
  if minNormal ≤ value ∧ value ≤ maxNormal then "Normal"
  else if value < minNormal * 0.8 ∨ value > maxNormal * 1.2 then "Critical"
  else "Warning"

/-- Fixed pulse-detection threshold of `esp32-main/src/main.cpp`
(line 108, `pulseThreshold = 2048`). -/
def pulseThreshold : ℤ := 2048

/-- The pulse-detection and timing state of `esp32-main/src/main.cpp`
(globals at lines 100 and 108-112): previous analog value, cumulative beat
count for the current window, last beat timestamp, detection flag, LED
state, and the start of the current counting window. -/
structure PulseState where
  lastPulseValue : ℤ
  pulseCount : ℕ
  lastHeartbeatTime : ℕ
  pulseDetected : Bool
  ledOn : Bool
  pulseWindow : ℕ
  deriving Repr, DecidableEq

/-- The pulse-detection section of `readSensors` (lines 398-413 of
`esp32-main/src/main.cpp`): on an upward crossing of `pulseThreshold`
(current sample above it, previous at or below it) increment `pulseCount`,
light the LED and record `lastHeartbeatTime`; otherwise turn the LED off.
The previous sample is always updated. There is no refractory-interval
check in this detector. -/
def pulseStep (s : PulseState) (t : ℕ) (pulseValue : ℤ) : PulseState :=
  if pulseValue > pulseThreshold ∧ s.lastPulseValue ≤ pulseThreshold then
    { s with pulseDetected := true, pulseCount := s.pulseCount + 1,
             ledOn := true, lastHeartbeatTime := t,
             lastPulseValue := pulseValue }
  else
    { s with ledOn := false, lastPulseValue := pulseValue }

/-- A run of the pulse-detection section of `readSensors` over a sequence
of sampling ticks, each a `(millis, analogRead)` pair. -/
def runPulse (s : PulseState) (l : List (ℕ × ℤ)) : PulseState :=
  l.foldl (fun st p => pulseStep st p.1 p.2) s

/-- The per-tick inputs of `readSensors`: the two AD8232 lead-off digital
inputs, the two analog samples, the BMP180 readings, and the three
`random(a, b)` draws used by the fallback/simulation branches. -/
structure SensorInputs where
  loPlus : Bool
  loMinus : Bool
  ecgSample : ℤ
  pulseValue : ℤ
  bmpTemperatureC : ℚ
  bmpPressurePa : ℚ
  randTemp : ℤ
  randPress : ℤ
  randSpO2 : ℤ
  deriving Repr, DecidableEq

/-- `readSensors` of `esp32-main/src/main.cpp` (lines 380-438): read the
ECG sample when both lead-off inputs are low and force `ecgValue` to 0
otherwise; run the pulse detector; fill temperature and pressure from the
BMP180 (Celsius-to-Fahrenheit and Pa-to-hPa conversion) or from the
simulated fallback; and simulate SpO2 from ECG signal presence. -/
def readSensors (v : VitalSigns) (ps : PulseState) (bmp180Ready : Bool)
    (t : ℕ) (inp : SensorInputs) : VitalSigns × PulseState :=
  let v1 := if ¬inp.loPlus ∧ ¬inp.loMinus
    then { v with ecgValue := inp.ecgSample }
    else { v with ecgValue := 0 }
  let ps1 := pulseStep ps t inp.pulseValue
  let v2 := if bmp180Ready then
      { v1 with temperature := inp.bmpTemperatureC * 9 / 5 + 32,
                pressure := inp.bmpPressurePa / 100 }
    else
      { v1 with temperature := 98.6 + (inp.randTemp : ℚ) / 10,
                pressure := 1013.25 + (inp.randPress : ℚ) }
  let v3 := if v2.ecgValue > 0
    then { v2 with spO2 := 98 + (inp.randSpO2 : ℚ) }
    else { v2 with spO2 := 95 }
  (v3, ps1)

/-- `calculateHeartRate` of `esp32-main/src/main.cpp` (lines 440-463): when
the 15-second counting window has elapsed, set the heart rate to
`pulseCount * 60 / 15` beats per minute and reset the counter and window
start; then zero the rate if no beat was seen within the 10-second
heartbeat timeout; finally clamp the rate into [0, 200]. -/
def calculateHeartRate (v : VitalSigns) (ps : PulseState) (currentTime : ℕ) :
    VitalSigns × PulseState :=
  let p1 :=
    if currentTime - ps.pulseWindow ≥ 15000 then
      ({ v with heartRate := (ps.pulseCount : ℚ) * 60 / 15 },
       { ps with pulseCount := 0, pulseWindow := currentTime })
    else (v, ps)
  let v2 := if currentTime - p1.2.lastHeartbeatTime > 10000
    then { p1.1 with heartRate := 0 } else p1.1
  let v3 := if v2.heartRate < 0 then { v2 with heartRate := 0 } else v2
  let v4 := if v3.heartRate > 200 then { v3 with heartRate := 200 } else v3
  (v4, p1.2)

/-- `estimateBloodPressure` of `esp32-main/src/main.cpp` (lines 465-497):
derive systolic/diastolic estimates from the heart rate around a 120/80
baseline with injected random variation; both are zero when the heart rate
is zero. `randSys` and `randDia` stand for `random(-5, 6)` and
`random(-3, 4)`. -/
def estimateBloodPressure (v : VitalSigns) (randSys randDia : ℤ) :
    VitalSigns :=
  if v.heartRate > 0 then
    let baseSystolic : ℚ := 120
    let baseDiastolic : ℚ := 80
    let base :=
      if v.heartRate > 100 then
        (baseSystolic + (v.heartRate - 100) * 0.5,
         baseDiastolic + (v.heartRate - 100) * 0.3)
      else if v.heartRate < 60 then
        (baseSystolic - (60 - v.heartRate) * 0.3,
         baseDiastolic - (60 - v.heartRate) * 0.2)
      else (baseSystolic, baseDiastolic)
    { v with systolicBP := base.1 + (randSys : ℚ),
             diastolicBP := base.2 + (randDia : ℚ) }
  else
    { v with systolicBP := 0, diastolicBP := 0 }

/-- A JSON value as built by the firmware's ArduinoJson documents: either a
number or a string. Numbers are modelled exactly as rationals. -/
inductive JsonValue where
  | num : ℚ → JsonValue
  | str : String → JsonValue
  deriving Repr, DecidableEq

/-- A JSON object modelled as an ordered key/value association list. -/
def JsonDoc := List (String × JsonValue)

/-- Field lookup in a JSON object (first binding of the key). -/
def jsonGet (doc : JsonDoc) (key : String) : Option JsonValue :=
  (doc.find? (fun kv => kv.1 = key)).map (fun kv => kv.2)

/-- Numeric field lookup in a JSON object. -/
def jsonGetNum (doc : JsonDoc) (key : String) : Option ℚ :=
  match jsonGet doc key with
  | some (JsonValue.num q) => some q
  | _ => none

/-- String field lookup in a JSON object. -/
def jsonGetStr (doc : JsonDoc) (key : String) : Option String :=
  match jsonGet doc key with
  | some (JsonValue.str s) => some s
  | _ => none

/-- The broadcast document built by `sendVitalSignsToClients` of
`esp32-main/src/main.cpp` (lines 1063-1080): a JSON object with the
`"type": "vitals"` tag, the eight numeric vitals fields, and the status
string, in the order the code assigns them. -/
def sendVitalSignsToClients (v : VitalSigns) : JsonDoc :=
  [("type", JsonValue.str "vitals"),
   ("heartRate", JsonValue.num v.heartRate),
   ("systolicBP", JsonValue.num v.systolicBP),
   ("diastolicBP", JsonValue.num v.diastolicBP),
   ("spO2", JsonValue.num v.spO2),
   ("temperature", JsonValue.num v.temperature),
   ("ecgValue", JsonValue.num (v.ecgValue : ℚ)),
   ("pressure", JsonValue.num v.pressure),
   ("timestamp", JsonValue.num (v.timestamp : ℚ)),
   ("status", JsonValue.str v.status)]

/-- Parser for the broadcast document, as a dashboard client reads it:
extract every field of the vitals snapshot back out of the JSON object
(numbers exactly; `ecgValue` and `timestamp` back to their integer types). -/
def parseVitalsMessage (doc : JsonDoc) : Option VitalSigns :=
  match jsonGetNum doc "heartRate", jsonGetNum doc "systolicBP",
        jsonGetNum doc "diastolicBP", jsonGetNum doc "spO2",
        jsonGetNum doc "temperature", jsonGetNum doc "ecgValue",
        jsonGetNum doc "pressure", jsonGetNum doc "timestamp",
        jsonGetStr doc "status" with
  | some hr, some sys, some dia, some sp, some temp, some ecg, some pr,
    some ts, some st =>
      some { heartRate := hr, systolicBP := sys, diastolicBP := dia,
             spO2 := sp, temperature := temp, ecgValue := ecg.num,
             pressure := pr, timestamp := ts.num.toNat, status := st }
  | _, _, _, _, _, _, _, _, _ => none

/-- The per-cycle side effects of the UI-update branch of `loop`
(lines 202-220 of `esp32-main/src/main.cpp`). -/
structure CycleEffects where
  buzzerSounded : Bool
  smsSent : Bool
  statusSet : String
  deriving Repr, DecidableEq

/-- The one-second UI-update branch of `loop` in `esp32-main/src/main.cpp`
(lines 202-220): aggregate the heart rate, estimate blood pressure, stamp
the snapshot; when a patient is registered set status to "Monitoring" and
run `checkForAlerts`, otherwise set status to "No Patient" and skip the
alert evaluator entirely; then broadcast. -/
def uiUpdateCycle (v : VitalSigns) (ps : PulseState)
    (patientRegistered sim800Ready : Bool) (emergencyContactLen : ℕ)
    (t : ℕ) (randSys randDia : ℤ) :
    VitalSigns × PulseState × CycleEffects :=
  let p1 := calculateHeartRate v ps t
  let v2 := estimateBloodPressure p1.1 randSys randDia
  let v3 := { v2 with timestamp := t }
  if patientRegistered then
    let v4 := { v3 with status := "Monitoring" }
    let r := checkForAlerts v4 sim800Ready emergencyContactLen
    (r.vitals, p1.2,
     { buzzerSounded := r.buzzerSounded, smsSent := r.smsSent,
       statusSet := r.vitals.status })
  else
    let v4 := { v3 with status := "No Patient" }
    (v4, p1.2,
     { buzzerSounded := false, smsSent := false, statusSet := v4.status })

/-- Inputs to one UI-update cycle of the main loop: whether a registration
request (`handlePatientRegistration`) arrived since the previous cycle, the
current `millis()` value, and the random draws of `estimateBloodPressure`. -/
structure CycleInput where
  registerEvent : Bool
  t : ℕ
  randSys : ℤ
  randDia : ℤ
  deriving Repr, DecidableEq

/-- Global controller state threaded through successive UI-update cycles of
the main loop: the current vitals, the pulse-detection state, and the
`patientRegistered`, `sim800Ready` flags with the length of the registered
emergency contact. -/
structure SysState where
  vitals : VitalSigns
  pulse : PulseState
  patientRegistered : Bool
  sim800Ready : Bool
  emergencyContactLen : ℕ
  deriving Repr, DecidableEq

/-- One main-loop iteration at a UI-update boundary: web handling first
(`handlePatientRegistration` sets `patientRegistered` when a registration
request arrived, line 967), then the UI-update branch. -/
def loopCycle (s : SysState) (inp : CycleInput) : SysState × CycleEffects :=
  let registered := s.patientRegistered || inp.registerEvent
  let r := uiUpdateCycle s.vitals s.pulse registered s.sim800Ready
    s.emergencyContactLen inp.t inp.randSys inp.randDia
  ({ s with vitals := r.1, pulse := r.2.1, patientRegistered := registered },
   r.2.2)

/-- A run of successive UI-update cycles, collecting the per-cycle
effects. -/
def runCycles (s : SysState) : List CycleInput → SysState × List CycleEffects
  | [] => (s, [])
  | inp :: rest =>
      let r := loopCycle s inp
      let rs := runCycles r.1 rest
      (rs.1, r.2 :: rs.2)

/-- A cycle is quiet when it produced no buzzer pulse, sent no SMS, and set
the status label to "No Patient". -/
def cycleQuiet (e : CycleEffects) : Bool :=
  !e.buzzerSounded && !e.smsSent && (e.statusSet == "No Patient")

end Main

namespace Sensors

/-- Pulse threshold of `esp32-sensors/src/main.cpp` (line 64,
`threshold = 2048`). -/
def threshold : ℤ := 2048

/-- ECG beat threshold of `esp32-sensors/src/main.cpp` (line 77,
`ecgThreshold = 2000`). -/
def ecgThreshold : ℤ := 2000

/-- Pulse-detection state of `esp32-sensors/src/main.cpp` (globals at
lines 63-69): detection latch, last beat timestamp, beat counter, window
start, and the two computed rate values. -/
structure PulseSensorState where
  pulseDetected : Bool
  lastBeat : ℕ
  beatCount : ℕ
  beatStartTime : ℕ
  bpm : ℤ
  heartRatePulse : ℚ
  deriving Repr, DecidableEq

/-- `readPulseSensor` of `esp32-sensors/src/main.cpp` (lines 233-263): a
beat is registered only when the signal is above `threshold`, the detection
latch is clear, **and** more than 300 ms have elapsed since the last beat
(the refractory interval). Every 10 beats or 10 seconds the BPM is
recomputed from the elapsed window. The latch clears when the signal drops
below `threshold - 100`. -/
def readPulseSensor (s : PulseSensorState) (t : ℕ) (pulseSignal : ℤ) :
    PulseSensorState :=
  let s1 :=
    if pulseSignal > threshold ∧ ¬s.pulseDetected ∧ t - s.lastBeat > 300 then
      let sb := { s with pulseDetected := true, lastBeat := t,
                         beatCount := s.beatCount + 1 }
      if sb.beatCount ≥ 10 ∨ t - sb.beatStartTime > 10000 then
        let timeDiff := t - sb.beatStartTime
        let sc :=
          if timeDiff > 0 ∧ sb.beatCount > 0 then
            { sb with bpm := (sb.beatCount : ℤ) * 60000 / (timeDiff : ℤ),
                      heartRatePulse :=
                        ((sb.beatCount : ℤ) * 60000 / (timeDiff : ℤ) : ℤ) }
          else sb
        { sc with beatCount := 0, beatStartTime := t }
      else sb
    else s
  if pulseSignal < threshold - 100 then { s1 with pulseDetected := false }
  else s1

/-- ECG-processing state of `esp32-sensors/src/main.cpp` (globals at
lines 72-77): lead connection flag, last raw sample, computed ECG heart
rate, beat counter and last ECG beat timestamp, plus the `heartRateECG`
field of `SensorData`. -/
structure ECGState where
  leadsConnected : Bool
  ecgSignal : ℤ
  ecgHeartRate : ℚ
  ecgBeatCount : ℕ
  ecgBeatTime : ℕ
  heartRateECG : ℚ
  deriving Repr, DecidableEq

/-- `readAD8232` of `esp32-sensors/src/main.cpp` (lines 199-231): when
either lead-off input is high the channel is marked disconnected, the raw
signal is forced to 0, and no peak detection runs; otherwise peaks above
`ecgThreshold` at least 300 ms apart are counted, and every 10 beats the
rate is recomputed from an approximated window (the float arithmetic of
line 221 is carried over to exact rationals, with division by a zero rate
modelled as 0). -/
def readAD8232 (s : ECGState) (t : ℕ) (loPlus loMinus : Bool)
    (analogSample : ℤ) : ECGState :=
  if loPlus ∨ loMinus then
    { s with leadsConnected := false, ecgSignal := 0 }
  else
    let s1 := { s with leadsConnected := true, ecgSignal := analogSample }
    if s1.ecgSignal > ecgThreshold ∧ t - s1.ecgBeatTime > 300 then
      let s2 := { s1 with ecgBeatCount := s1.ecgBeatCount + 1,
                          ecgBeatTime := t }
      if s2.ecgBeatCount ≥ 10 then
        let timeDiff : ℚ :=
          (t : ℚ) - ((s2.ecgBeatTime : ℚ) - 10 * 60000 / s2.ecgHeartRate)
        let s3 :=
          if timeDiff > 0 then
            { s2 with ecgHeartRate := (s2.ecgBeatCount : ℚ) * 60000 / timeDiff,
                      heartRateECG := (s2.ecgBeatCount : ℚ) * 60000 / timeDiff }
          else s2
        { s3 with ecgBeatCount := 0 }
      else s2
    else s1

/-- The source-selection step of `calculateHeartRates` in
`esp32-sensors/src/main.cpp` (lines 285-294): use the ECG-derived rate only
when the leads are connected and it is plausible (strictly between 40 and
200); otherwise fall back to the pulse-derived rate under the same
plausibility test; otherwise 0. -/
def selectHeartRate (leadsConnected : Bool) (heartRateECG heartRatePulse : ℚ) :
    ℚ :=
  if leadsConnected = true ∧ heartRateECG > 40 ∧ heartRateECG < 200 then
    heartRateECG
  else if heartRatePulse > 40 ∧ heartRatePulse < 200 then heartRatePulse
  else 0

/-- `calculateHeartRates` of `esp32-sensors/src/main.cpp` (lines 282-307):
select the most reliable rate source, average it with the previous filtered
value when one exists, and write the filtered value back to both rate
fields (returned here together with the new `lastHeartRate`). -/
def calculateHeartRates (leadsConnected : Bool)
    (heartRateECG heartRatePulse lastHeartRate : ℚ) : ℚ :=
  let finalHeartRate := selectHeartRate leadsConnected heartRateECG
    heartRatePulse
  if lastHeartRate > 0 then (finalHeartRate + lastHeartRate) / 2
  else finalHeartRate

end Sensors

namespace Dashboard

/-- Severity level attached to a dashboard vital status
(`level` field of the classifier results in the dashboard script). -/
inductive StatusLevel where
  | normal
  | warning
  | critical
  deriving Repr, DecidableEq

/-- A dashboard classification result: display text plus severity level. -/
structure VitalStatus where
  text : String
  level : StatusLevel
  deriving Repr, DecidableEq

/-- `getHeartRateStatus(hr)` of the dashboard script (lines 762-770 of the
dashboard asset): below 50 is "Critical Low", 50-59 "Bradycardia", above
120 "Critical High", 101-120 "Tachycardia", otherwise "Normal". The
null-input guard is omitted: the input is always a number here. -/
def getHeartRateStatus (hr : ℚ) : VitalStatus :=
  if hr < 50 then ⟨"Critical Low", StatusLevel.critical⟩
  else if hr < 60 then ⟨"Bradycardia", StatusLevel.warning⟩
  else if hr > 120 then ⟨"Critical High", StatusLevel.critical⟩
  else if hr > 100 then ⟨"Tachycardia", StatusLevel.warning⟩
  else ⟨"Normal", StatusLevel.normal⟩

/-- `getSpO2Status(spo2)` of the dashboard script (lines 780-786 of the
dashboard asset): below 88 is "Critical", 88-94 "Low", 95-96
"Below Normal", otherwise "Normal". The null-input guard is omitted: the
input is always a number here. -/
def getSpO2Status (spo2 : ℚ) : VitalStatus :=
  if spo2 < 88 then ⟨"Critical", StatusLevel.critical⟩
  else if spo2 < 95 then ⟨"Low", StatusLevel.warning⟩
  else if spo2 < 97 then ⟨"Below Normal", StatusLevel.warning⟩
  else ⟨"Normal", StatusLevel.normal⟩

end Dashboard

/-! Theorems settling the claims. -/

open Main Sensors Dashboard

/-- C1: with every other vital inside its normal band, a heart rate of 45
makes the Alert Evaluator `checkForAlerts` classify the snapshot with the
alert status (the dashboard classifiers `getHeartRateStatus` and
`updateVitalStatus` label the same value "Critical") and never with the
normal status, while a heart rate of 75 yields the normal status (and
"Normal" from the dashboard classifiers). -/
theorem C1_heart_rate_alert_classification
    (v : VitalSigns) (sim800Ready : Bool) (contactLen : ℕ)
    (hsys1 : 80 ≤ v.systolicBP) (hsys2 : v.systolicBP ≤ 160)
    (hsp : 90 ≤ v.spO2)
    (ht1 : 95 ≤ v.temperature) (ht2 : v.temperature ≤ 102) :
    (v.heartRate = 45 →
      (checkForAlerts v sim800Ready contactLen).vitals.status = alertStatus ∧
      (checkForAlerts v sim800Ready contactLen).vitals.status ≠ normalStatus ∧
      getHeartRateStatus v.heartRate =
        ⟨"Critical Low", StatusLevel.critical⟩ ∧
      updateVitalStatus v.heartRate 60 100 = "Critical") ∧
    (v.heartRate = 75 →
      (checkForAlerts v sim800Ready contactLen).vitals.status = normalStatus ∧
      getHeartRateStatus v.heartRate = ⟨"Normal", StatusLevel.normal⟩ ∧
      updateVitalStatus v.heartRate 60 100 = "Normal") := by
  constructor
  · intro h45
    have hac : alertCondition v := Or.inl (Or.inl (by rw [h45]; norm_num))
    refine ⟨by simp [checkForAlerts, hac], ?_, ?_, ?_⟩
    · simp only [checkForAlerts, if_pos hac]
      decide
    · rw [h45]; decide
    · rw [h45]; norm_num [updateVitalStatus]
  · intro h75
    have hac : ¬ alertCondition v := by
      unfold alertCondition
      rw [h75]
      push_neg
      exact ⟨⟨by norm_num, by norm_num⟩, ⟨hsys2, hsys1⟩, hsp, ht2, ht1⟩
    refine ⟨by simp [checkForAlerts, hac], ?_, ?_⟩
    · rw [h75]; decide
    · rw [h75]; norm_num [updateVitalStatus]

/-- Concrete snapshot for the C1 witness: heart rate 45, every other vital
inside its normal band. -/
def c1Vitals : VitalSigns :=
  { heartRate := 45, systolicBP := 120, diastolicBP := 80, spO2 := 98,
    temperature := 98, ecgValue := 2000, pressure := 1013,
    timestamp := 0, status := "Monitoring" }

/-- Witness for C1 at the concrete snapshot `c1Vitals`. -/
theorem C1_heart_rate_alert_classification_witness :
    (checkForAlerts c1Vitals true 10).vitals.status = alertStatus ∧
    (checkForAlerts c1Vitals true 10).vitals.status ≠ normalStatus :=
  let h := (C1_heart_rate_alert_classification c1Vitals true 10
    (by decide) (by decide) (by decide) (by decide) (by decide)).1
    (by decide)
  ⟨h.1, h.2.1⟩

/-- C2: with every other vital inside its normal band, an SpO2 of 85 makes
the Alert Evaluator `checkForAlerts` classify the snapshot with the alert
status and never with the normal status (and the dashboard classifier
`getSpO2Status` labels 85 literally "Critical"), while an SpO2 of 99 yields
the normal status (and "Normal" from `getSpO2Status`). -/
theorem C2_spo2_alert_classification
    (v : VitalSigns) (sim800Ready : Bool) (contactLen : ℕ)
    (hhr1 : 50 ≤ v.heartRate) (hhr2 : v.heartRate ≤ 120)
    (hsys1 : 80 ≤ v.systolicBP) (hsys2 : v.systolicBP ≤ 160)
    (ht1 : 95 ≤ v.temperature) (ht2 : v.temperature ≤ 102) :
    (v.spO2 = 85 →
      (checkForAlerts v sim800Ready contactLen).vitals.status = alertStatus ∧
      (checkForAlerts v sim800Ready contactLen).vitals.status ≠ normalStatus ∧
      getSpO2Status v.spO2 = ⟨"Critical", StatusLevel.critical⟩) ∧
    (v.spO2 = 99 →
      (checkForAlerts v sim800Ready contactLen).vitals.status = normalStatus ∧
      getSpO2Status v.spO2 = ⟨"Normal", StatusLevel.normal⟩) := by
  constructor
  · intro h85
    have hac : alertCondition v :=
      Or.inr (Or.inr (Or.inl (by rw [h85]; norm_num)))
    refine ⟨by simp [checkForAlerts, hac], ?_, ?_⟩
    · simp only [checkForAlerts, if_pos hac]
      decide
    · rw [h85]; decide
  · intro h99
    have hac : ¬ alertCondition v := by
      unfold alertCondition
      rw [h99]
      push_neg
      exact ⟨⟨hhr1, hhr2⟩, ⟨hsys2, hsys1⟩, by norm_num, ht2, ht1⟩
    refine ⟨by simp [checkForAlerts, hac], ?_⟩
    rw [h99]; decide

/-- Concrete snapshot for the C2 witness: SpO2 85, every other vital inside
its normal band. -/
def c2Vitals : VitalSigns :=
  { heartRate := 75, systolicBP := 120, diastolicBP := 80, spO2 := 85,
    temperature := 98, ecgValue := 2000, pressure := 1013,
    timestamp := 0, status := "Monitoring" }

/-- Witness for C2 at the concrete snapshot `c2Vitals`. -/
theorem C2_spo2_alert_classification_witness :
    (checkForAlerts c2Vitals true 10).vitals.status = alertStatus ∧
    getSpO2Status c2Vitals.spO2 = ⟨"Critical", StatusLevel.critical⟩ :=
  let h := (C2_spo2_alert_classification c2Vitals true 10
    (by decide) (by decide) (by decide) (by decide) (by decide)
    (by decide)).1 (by decide)
  ⟨h.1, h.2.2⟩

/-- Fresh pulse-detection state for the C3 counterexample run. -/
def c3InitialState : PulseState :=
  { lastPulseValue := 0, pulseCount := 0, lastHeartbeatTime := 0,
    pulseDetected := false, ledOn := false, pulseWindow := 0 }

/-- Sampling run with two upward threshold crossings 200 ms apart
(at t = 100 ms and t = 300 ms, samples 3000 with a dip to 1000 between). -/
def c3Samples : List (ℕ × ℤ) := [(100, 3000), (200, 1000), (300, 3000)]

/-- C3 counterexample: in the main firmware's detector (`readSensors`,
which has no refractory check), two upward threshold crossings only 200 ms
apart — less than the claimed 300 ms refractory interval — BOTH increment
the beat counter: the count after the run is 2, where the claim requires
the second crossing to produce no BeatEvent (count 1). -/
theorem C3_counterexample_main_detector_counts_both :
    (runPulse c3InitialState c3Samples).pulseCount = 2 ∧
    (300 - 100 : ℕ) < 300 := by decide

/-- C3 amended: the refractory debouncing holds only for the sensor-module
detector `readPulseSensor` of `esp32-sensors/src/main.cpp`: any sample
arriving within 300 ms of the last registered beat produces no BeatEvent
(beat counter and last-beat timestamp are unchanged), whatever the sample
value; the main firmware's detector has no refractory interval and counts
every upward crossing. -/
theorem C3_sensor_module_refractory_debounce
    (s : PulseSensorState) (t : ℕ) (x : ℤ)
    (h : t - s.lastBeat ≤ 300) :
    (readPulseSensor s t x).beatCount = s.beatCount ∧
    (readPulseSensor s t x).lastBeat = s.lastBeat := by
  have hcond : ¬ (x > Sensors.threshold ∧ ¬s.pulseDetected = true ∧
      t - s.lastBeat > 300) := by
    rintro ⟨-, -, h3⟩
    omega
  unfold readPulseSensor
  rw [if_neg hcond]
  split_ifs <;> exact ⟨rfl, rfl⟩

/-- Concrete sensor-module pulse state for the C3 witness: a beat was
registered at 1000 ms. -/
def c3RefractoryState : PulseSensorState :=
  { pulseDetected := false, lastBeat := 1000, beatCount := 1,
    beatStartTime := 0, bpm := 0, heartRatePulse := 0 }

/-- Witness for the amended C3: a beat was registered at 1000 ms; a strong
sample at 1200 ms (200 ms later) does not increment the beat counter. -/
theorem C3_sensor_module_refractory_debounce_witness :
    (readPulseSensor c3RefractoryState 1200 4000).beatCount =
      c3RefractoryState.beatCount :=
  (C3_sensor_module_refractory_debounce c3RefractoryState
    1200 4000 (by decide)).1

/-- C4: an asserted lead-off input forces the ECG channel's contribution to
zero regardless of the residual analog sample: in the sensor module,
`readAD8232` marks the channel disconnected, zeroes the raw signal, and
feeds nothing to the beat detector (beat counter and ECG rate unchanged);
`selectHeartRate` ignores the ECG rate entirely when the leads are off; and
in the main firmware, `readSensors` forces `ecgValue` to 0. -/
theorem C4_lead_off_forces_zero_contribution
    (s : ECGState) (t : ℕ) (loPlus loMinus : Bool) (sample : ℤ)
    (h : loPlus = true ∨ loMinus = true)
    (v : VitalSigns) (ps : PulseState) (bmpReady : Bool)
    (inp : SensorInputs)
    (hlo : inp.loPlus = true ∨ inp.loMinus = true)
    (hrE hrE' hrP : ℚ) :
    readAD8232 s t loPlus loMinus sample =
      { s with leadsConnected := false, ecgSignal := 0 } ∧
    (readAD8232 s t loPlus loMinus sample).ecgBeatCount = s.ecgBeatCount ∧
    (readAD8232 s t loPlus loMinus sample).heartRateECG = s.heartRateECG ∧
    selectHeartRate false hrE hrP = selectHeartRate false hrE' hrP ∧
    (readSensors v ps bmpReady t inp).1.ecgValue = 0 := by
  have hdis : loPlus = true ∨ loMinus = true := h
  have h1 : readAD8232 s t loPlus loMinus sample =
      { s with leadsConnected := false, ecgSignal := 0 } := by
    unfold readAD8232
    rw [if_pos hdis]
  have h4 : selectHeartRate false hrE hrP = selectHeartRate false hrE' hrP := by
    unfold selectHeartRate
    simp
  have h5 : (readSensors v ps bmpReady t inp).1.ecgValue = 0 := by
    have hneg : ¬ (¬ inp.loPlus = true ∧ ¬ inp.loMinus = true) := by
      rcases hlo with h' | h' <;> simp [h']
    simp only [readSensors]
    rw [if_neg hneg]
    simp only [apply_ite VitalSigns.ecgValue]
    split_ifs <;> rfl
  exact ⟨h1, by rw [h1], by rw [h1], h4, h5⟩

/-- Concrete ECG state and sensor inputs for the C4 witness. -/
def c4ECGState : ECGState :=
  { leadsConnected := true, ecgSignal := 2500, ecgHeartRate := 72,
    ecgBeatCount := 3, ecgBeatTime := 500, heartRateECG := 72 }

/-- Concrete sensor inputs for the C4 witness: lead-off plus asserted, a
large residual analog sample on the ECG channel. -/
def c4Inputs : SensorInputs :=
  { loPlus := true, loMinus := false, ecgSample := 3000, pulseValue := 0,
    bmpTemperatureC := 37, bmpPressurePa := 101325, randTemp := 0,
    randPress := 0, randSpO2 := 0 }

/-- Witness for C4: with the lead-off input asserted and a residual analog
sample of 3000, the ECG state is forced to disconnected/zero and the main
firmware's `ecgValue` is 0. -/
theorem C4_lead_off_forces_zero_contribution_witness :
    readAD8232 c4ECGState 600 true false 3000 =
      { c4ECGState with leadsConnected := false, ecgSignal := 0 } ∧
    (readSensors c1Vitals c3InitialState true 600 c4Inputs).1.ecgValue = 0 :=
  let h := C4_lead_off_forces_zero_contribution c4ECGState 600 true false
    3000 (Or.inl rfl) c1Vitals c3InitialState true c4Inputs (Or.inl rfl)
    60 80 70
  ⟨h.1, h.2.2.2.2⟩

/-- C5: whenever more than the 10-second heartbeat timeout has elapsed
since the last BeatEvent, `calculateHeartRate` sets the aggregated heart
rate to exactly 0 rather than holding the previous value. -/
theorem C5_stale_heartbeat_forces_zero_rate
    (v : VitalSigns) (ps : PulseState) (t : ℕ)
    (h : t - ps.lastHeartbeatTime > 10000) :
    (calculateHeartRate v ps t).1.heartRate = 0 := by
  unfold calculateHeartRate
  by_cases hw : t - ps.pulseWindow ≥ 15000 <;>
    simp [hw, h] <;> norm_num

/-- Witness for C5: last beat at 2000 ms, aggregation at 20000 ms; the rate
is zeroed even though the snapshot held 75 BPM. -/
theorem C5_stale_heartbeat_forces_zero_rate_witness :
    (calculateHeartRate c2Vitals
      { lastPulseValue := 0, pulseCount := 0, lastHeartbeatTime := 2000,
        pulseDetected := false, ledOn := false, pulseWindow := 19000 }
      20000).1.heartRate = 0 :=
  C5_stale_heartbeat_forces_zero_rate c2Vitals
    { lastPulseValue := 0, pulseCount := 0, lastHeartbeatTime := 2000,
      pulseDetected := false, ledOn := false, pulseWindow := 19000 }
    20000 (by decide)

/-- C8: a raw pulse sample below the detection threshold produces no
BeatEvent on that tick, in the main firmware's detector (`pulseCount`
unchanged) and in the sensor module's detector (`beatCount` unchanged). -/
theorem C8_below_threshold_no_beat
    (s : PulseState) (t : ℕ) (x : ℤ) (hx : x < pulseThreshold)
    (s2 : PulseSensorState) (t2 : ℕ) (y : ℤ) (hy : y < Sensors.threshold) :
    (pulseStep s t x).pulseCount = s.pulseCount ∧
    (readPulseSensor s2 t2 y).beatCount = s2.beatCount := by
  constructor
  · have hcond : ¬ (x > pulseThreshold ∧ s.lastPulseValue ≤ pulseThreshold) := by
      rintro ⟨h1, -⟩
      omega
    unfold pulseStep
    rw [if_neg hcond]
  · have hcond : ¬ (y > Sensors.threshold ∧ ¬s2.pulseDetected = true ∧
        t2 - s2.lastBeat > 300) := by
      rintro ⟨h1, -⟩
      omega
    unfold readPulseSensor
    rw [if_neg hcond]
    split_ifs <;> rfl

/-- Concrete sensor-module pulse state for the C8 witness. -/
def c8SensorState : PulseSensorState :=
  { pulseDetected := false, lastBeat := 0, beatCount := 5,
    beatStartTime := 0, bpm := 0, heartRatePulse := 0 }

/-- Witness for C8: a sample of 1500 (below both thresholds) leaves both
beat counters unchanged. -/
theorem C8_below_threshold_no_beat_witness :
    (pulseStep c3InitialState 100 1500).pulseCount = 0 ∧
    (readPulseSensor c8SensorState 100 1500).beatCount = 5 :=
  C8_below_threshold_no_beat c3InitialState 100 1500 (by decide)
    c8SensorState 100 1500 (by decide)

/-- Helper: the main firmware's pulse detector updates its beat count and
previous-sample memory independently of the tick timestamp — the step
transition for these two fields is a function of the sample value alone. -/
theorem pulseStep_congr (s1 s2 : PulseState) (t1 t2 : ℕ) (x : ℤ)
    (hl : s1.lastPulseValue = s2.lastPulseValue)
    (hc : s1.pulseCount = s2.pulseCount) :
    (pulseStep s1 t1 x).pulseCount = (pulseStep s2 t2 x).pulseCount ∧
    (pulseStep s1 t1 x).lastPulseValue = (pulseStep s2 t2 x).lastPulseValue := by
  unfold pulseStep
  by_cases hcond : x > pulseThreshold ∧ s1.lastPulseValue ≤ pulseThreshold
  · have hcond2 : x > pulseThreshold ∧ s2.lastPulseValue ≤ pulseThreshold := by
      rw [← hl]
      exact hcond
    rw [if_pos hcond, if_pos hcond2]
    exact ⟨by simp [hc], rfl⟩
  · have hcond2 : ¬ (x > pulseThreshold ∧ s2.lastPulseValue ≤ pulseThreshold) := by
      rw [← hl]
      exact hcond
    rw [if_neg hcond, if_neg hcond2]
    exact ⟨hc, rfl⟩

/-- Helper: two runs of the main firmware's pulse detector over tick
sequences carrying the same sample values (timestamps may differ), started
from states agreeing on the previous sample and the beat count, end with
the same beat count. -/
theorem runPulse_count_congr :
    ∀ (l1 l2 : List (ℕ × ℤ)) (s1 s2 : PulseState),
      s1.lastPulseValue = s2.lastPulseValue →
      s1.pulseCount = s2.pulseCount →
      l1.map Prod.snd = l2.map Prod.snd →
      (runPulse s1 l1).pulseCount = (runPulse s2 l2).pulseCount := by
  intro l1
  induction l1 with
  | nil =>
    intro l2 s1 s2 hl hc hmap
    cases l2 with
    | nil => exact hc
    | cons b r2 => simp at hmap
  | cons a r ih =>
    intro l2 s1 s2 hl hc hmap
    cases l2 with
    | nil => simp at hmap
    | cons b r2 =>
      simp only [List.map_cons, List.cons.injEq] at hmap
      have hstep := pulseStep_congr s1 s2 a.1 b.1 a.2 hl hc
      simp only [runPulse, List.foldl_cons] at *
      rw [← hmap.1]
      exact ih r2 (pulseStep s1 a.1 a.2) (pulseStep s2 b.1 a.2)
        hstep.2 hstep.1 hmap.2

/-- C6: when the 15-second counting window has elapsed (and neither the
staleness timeout nor the 200 BPM clamp interferes), `calculateHeartRate`
computes the rate by the fixed-window formula `count * 60 / 15` and resets
both the beat counter and the window start (non-overlapping windows);
moreover the detector's beat count — hence the computed rate — is a
function of the sample-value sequence fed into the fresh window alone, so
the same BeatEvent sequence always yields the same rate. -/
theorem C6_window_rate_formula_and_reset
    (v : VitalSigns) (ps : PulseState) (t : ℕ)
    (hwin : t - ps.pulseWindow ≥ 15000)
    (hfresh : t - ps.lastHeartbeatTime ≤ 10000)
    (hcap : (ps.pulseCount : ℚ) * 60 / 15 ≤ 200) :
    ((calculateHeartRate v ps t).1.heartRate =
        (ps.pulseCount : ℚ) * 60 / 15 ∧
     (calculateHeartRate v ps t).2.pulseCount = 0 ∧
     (calculateHeartRate v ps t).2.pulseWindow = t) ∧
    ∀ (l1 l2 : List (ℕ × ℤ)) (s1 s2 : PulseState),
      s1.lastPulseValue = s2.lastPulseValue →
      s1.pulseCount = s2.pulseCount →
      l1.map Prod.snd = l2.map Prod.snd →
      (runPulse s1 l1).pulseCount = (runPulse s2 l2).pulseCount := by
  have hge : ¬ (t - ps.lastHeartbeatTime > 10000) := by omega
  have h0' : (0 : ℚ) ≤ (ps.pulseCount : ℚ) * 60 / 15 := by positivity
  have h0 : ¬ ((ps.pulseCount : ℚ) * 60 / 15 < 0) := not_lt.mpr h0'
  have h200 : ¬ ((ps.pulseCount : ℚ) * 60 / 15 > 200) := not_lt.mpr hcap
  refine ⟨⟨?_, ?_, ?_⟩, runPulse_count_congr⟩ <;>
    simp [calculateHeartRate, hwin, hge, h0, h200]

/-- Pulse state for the C6 witness: a full window (started at 0, aggregated
at t = 15000 ms) in which 20 beats were counted, the last at 14000 ms. -/
def c6PulseState : PulseState :=
  { lastPulseValue := 1000, pulseCount := 20, lastHeartbeatTime := 14000,
    pulseDetected := true, ledOn := false, pulseWindow := 0 }

/-- Witness for C6: 20 beats in the 15-second window yield
20 * 60 / 15 = 80 BPM, and the counter and window are reset. -/
theorem C6_window_rate_formula_and_reset_witness :
    (calculateHeartRate c1Vitals c6PulseState 15000).1.heartRate =
        (20 : ℚ) * 60 / 15 ∧
    (calculateHeartRate c1Vitals c6PulseState 15000).2.pulseCount = 0 ∧
    (calculateHeartRate c1Vitals c6PulseState 15000).2.pulseWindow = 15000 :=
  (C6_window_rate_formula_and_reset c1Vitals c6PulseState 15000
    (by decide) (by decide) (by norm_num [c6PulseState])).1

/-- C7: after every execution of the rate aggregation the heart-rate field
lies in [0, 200]; a (hypothetical) value below 0 is clamped to 0 and a
value above 200 is clamped to 200 (shown on cycles where neither the
window nor the timeout rewrites the rate first); and no other operation of
the loop — blood-pressure estimation, alert evaluation, sensor reading —
modifies the heart-rate field. -/
theorem C7_heart_rate_clamped_invariant
    (v w : VitalSigns) (ps ps2 : PulseState) (t t2 : ℕ)
    (randSys randDia : ℤ) (sim800Ready bmpReady : Bool)
    (contactLen : ℕ) (inp : SensorInputs) :
    (0 ≤ (calculateHeartRate v ps t).1.heartRate ∧
     (calculateHeartRate v ps t).1.heartRate ≤ 200) ∧
    (t - ps.pulseWindow < 15000 → t - ps.lastHeartbeatTime ≤ 10000 →
      v.heartRate < 0 → (calculateHeartRate v ps t).1.heartRate = 0) ∧
    (t - ps.pulseWindow < 15000 → t - ps.lastHeartbeatTime ≤ 10000 →
      v.heartRate > 200 → (calculateHeartRate v ps t).1.heartRate = 200) ∧
    (estimateBloodPressure w randSys randDia).heartRate = w.heartRate ∧
    (checkForAlerts w sim800Ready contactLen).vitals.heartRate = w.heartRate ∧
    (readSensors w ps2 bmpReady t2 inp).1.heartRate = w.heartRate := by
  refine ⟨?_, ?_, ?_, ?_, ?_, ?_⟩
  · unfold calculateHeartRate
    dsimp only
    split_ifs <;> simp_all
  · intro h1 h2 h3
    have hw : ¬ (t - ps.pulseWindow ≥ 15000) := by omega
    have hs : ¬ (t - ps.lastHeartbeatTime > 10000) := by omega
    simp [calculateHeartRate, hw, hs, h3]
    norm_num
  · intro h1 h2 h3
    have hw : ¬ (t - ps.pulseWindow ≥ 15000) := by omega
    have hs : ¬ (t - ps.lastHeartbeatTime > 10000) := by omega
    have h0 : ¬ (v.heartRate < 0) := by linarith
    simp [calculateHeartRate, hw, hs, h0, h3]
  · unfold estimateBloodPressure
    split_ifs <;> rfl
  · unfold checkForAlerts
    split_ifs <;> rfl
  · simp only [readSensors]
    simp only [apply_ite VitalSigns.heartRate]
    split_ifs <;> rfl

/-- Pulse state for the C7 witness: mid-window (no aggregation), fresh
heartbeat. -/
def c7PulseState : PulseState :=
  { lastPulseValue := 1000, pulseCount := 3, lastHeartbeatTime := 900,
    pulseDetected := false, ledOn := false, pulseWindow := 0 }

/-- Witness for C7 at concrete inputs: a snapshot holding −5 BPM is clamped
to 0 and one holding 250 BPM is clamped to 200. -/
theorem C7_heart_rate_clamped_invariant_witness :
    (calculateHeartRate { c1Vitals with heartRate := -5 }
        c7PulseState 1000).1.heartRate = 0 ∧
    (calculateHeartRate { c1Vitals with heartRate := 250 }
        c7PulseState 1000).1.heartRate = 200 :=
  ⟨((C7_heart_rate_clamped_invariant { c1Vitals with heartRate := -5 }
      c1Vitals c7PulseState c7PulseState 1000 1000 0 0 true true 10
      c4Inputs).2.1) (by decide) (by decide) (by norm_num),
   ((C7_heart_rate_clamped_invariant { c1Vitals with heartRate := 250 }
      c1Vitals c7PulseState c7PulseState 1000 1000 0 0 true true 10
      c4Inputs).2.2.1) (by decide) (by decide) (by norm_num)⟩

/-- C9: serializing a vitals snapshot to the broadcast JSON document
(`sendVitalSignsToClients`) and parsing the document back reproduces every
field — the eight numeric fields and the status string — exactly (numbers
are modelled as exact rationals, so no precision is lost at the document
level). -/
theorem C9_broadcast_roundtrip (v : VitalSigns) :
    parseVitalsMessage (sendVitalSignsToClients v) = some v := by
  simp [parseVitalsMessage, sendVitalSignsToClients, jsonGetNum,
    jsonGetStr, jsonGet, List.find?]

/-- C10: over any run of UI-update cycles starting unregistered and
receiving no registration request, the alert evaluator is never invoked —
no cycle sounds the buzzer or sends an SMS, and every cycle sets the
snapshot status to "No Patient". -/
theorem C10_no_patient_no_alerts
    (s : SysState) (inputs : List CycleInput)
    (hreg : s.patientRegistered = false)
    (hins : inputs.all (fun i => !i.registerEvent) = true) :
    (runCycles s inputs).2.all cycleQuiet = true := by
  induction inputs generalizing s with
  | nil => simp [runCycles]
  | cons i rest ih =>
    simp only [List.all_cons, Bool.and_eq_true] at hins
    have hi : i.registerEvent = false := by
      have h1 := hins.1
      simpa using h1
    have hstate : (loopCycle s i).1.patientRegistered = false := by
      simp [loopCycle, hreg, hi]
    have heff : cycleQuiet (loopCycle s i).2 = true := by
      simp [loopCycle, uiUpdateCycle, hreg, hi, cycleQuiet]
    simp only [runCycles, List.all_cons, Bool.and_eq_true]
    exact ⟨heff, ih (loopCycle s i).1 hstate hins.2⟩

/-- System state for the C10 witness: no patient registered, GSM ready and
an emergency contact on file (so any alert would actually fire). -/
def c10State : SysState :=
  { vitals := c1Vitals, pulse := c3InitialState,
    patientRegistered := false, sim800Ready := true,
    emergencyContactLen := 10 }

/-- Two UI-update cycles with no registration request for the C10
witness. -/
def c10Inputs : List CycleInput :=
  [{ registerEvent := false, t := 1000, randSys := 2, randDia := -1 },
   { registerEvent := false, t := 2000, randSys := 0, randDia := 3 }]

/-- Witness for C10 over two concrete cycles. -/
theorem C10_no_patient_no_alerts_witness :
    (runCycles c10State c10Inputs).2.all cycleQuiet = true :=
  C10_no_patient_no_alerts c10State c10Inputs rfl rfl

end VitalCare
